import Mathlib

/-!
Verification of the schema-resolution and request-value-extraction core of the
`@novice1/validator-json` middleware (`src/index.ts`).

The JavaScript runtime values flowing through the middleware are modelled by
the inductive type `JVal` (undefined, null, booleans, numbers, strings, arrays,
plain objects, and opaque function values identified by a tag).  The helper
functions below model the JavaScript operations the source uses: truthiness,
`typeof x === 'object'`, `Array.isArray`, the `in` operator and property
access on plain data (own properties), the loose comparison `x == 'object'`
(which coerces arrays through `Array.prototype.toString`), and the
bracket-path rewriting regex `/\[([^[\]]*)\]/g`.
-/

/-- A JavaScript runtime value restricted to plain data plus opaque
function values (`vfunc n` stands for some function object, tagged by `n`). -/
inductive JVal where
  | vundefined : JVal
  | vnull : JVal
  | vbool : Bool → JVal
  | vnum : Int → JVal
  | vstr : String → JVal
  | varr : List JVal → JVal
  | vobj : List (String × JVal) → JVal
  | vfunc : Nat → JVal
deriving Repr

/-- JavaScript truthiness of a value. -/
def truthy : JVal → Bool
  | .vundefined => false
  | .vnull => false
  | .vbool b => b
  | .vnum n => n != 0
  | .vstr s => s != ""
  | .varr _ => true
  | .vobj _ => true
  | .vfunc _ => true

/-- The test `typeof x === 'object'` (true for null, arrays and objects;
false for functions and primitives). -/
def isObjType : JVal → Bool
  | .vnull => true
  | .varr _ => true
  | .vobj _ => true
  | _ => false

/-- The test `Array.isArray(x)`. -/
def isArr : JVal → Bool
  | .varr _ => true
  | _ => false

/-- The test `typeof x === 'function'`. -/
def jsIsFunc : JVal → Bool
  | .vfunc _ => true
  | _ => false

/-- Whether the value is a plain (non-array) object. -/
def isObjVal : JVal → Bool
  | .vobj _ => true
  | _ => false

/-- Parses a run of decimal digits left to right into a number; any
non-digit character makes the whole parse fail. -/
def digitsToNatAux : List Char → Nat → Option Nat
  | [], acc => some acc
  | c :: rest, acc =>
      if 48 ≤ c.toNat && c.toNat ≤ 57 then
        digitsToNatAux rest (acc * 10 + (c.toNat - 48))
      else none

/-- Reads a string as an unsigned decimal numeral (empty string fails). -/
def strToNat? (k : String) : Option Nat :=
  match k.data with
  | [] => none
  | cs => digitsToNatAux cs 0

/-- The JavaScript `in` operator on plain data: own keys of an object;
for an array, canonical numeric indices below the length, plus `length`. -/
def jsHasKey : JVal → String → Bool
  | .vobj fields, k => fields.any (fun p => p.1 == k)
  | .varr xs, k =>
      (match strToNat? k with
       | some i => toString i == k && decide (i < xs.length)
       | none => false) || k == "length"
  | _, _ => false

/-- Property access `x[k]` on plain data, yielding `undefined` when absent
(objects use the first matching own key; arrays expose indices and `length`). -/
def jsGet : JVal → String → JVal
  | .vobj fields, k =>
      match fields.find? (fun p => p.1 == k) with
      | some p => p.2
      | none => .vundefined
  | .varr xs, k =>
      if k == "length" then .vnum xs.length
      else
        match strToNat? k with
        | some i => if toString i == k then xs.getD i .vundefined else .vundefined
        | none => .vundefined
  | _, _ => .vundefined

mutual
/-- `Array.prototype.join(',')` over plain data: elements stringified and
comma-separated, with null and undefined rendered as the empty string. -/
def jsJoin : List JVal → String
  | [] => ""
  | [x] => jsJoinElem x
  | x :: xs => jsJoinElem x ++ "," ++ jsJoin xs

/-- Stringification of one array element under `join` (default prototypes):
null and undefined give the empty string, other values their `toString`. -/
def jsJoinElem : JVal → String
  | .vundefined => ""
  | .vnull => ""
  | .vbool b => if b then "true" else "false"
  | .vnum n => toString n
  | .vstr s => s
  | .varr xs => jsJoin xs
  | .vobj _ => "[object Object]"
  | .vfunc n => "function f" ++ toString n ++ "() {}"
end

/-- The loose comparison `x == 'object'` on plain data with default
prototypes: a string compares directly, an array is coerced through
`ToPrimitive` (its `toString`, i.e. `join(',')`); every other plain value
compares unequal to the string `"object"`. -/
def jsLooseEqObjectStr : JVal → Bool
  | .vstr t => t == "object"
  | .varr xs => jsJoin xs == "object"
  | _ => false

/-- Scans for `[inner]` where `inner` has no `[` or `]`: returns the inner
characters and the rest after the closing `]`, or none when no such closing
bracket is reachable. -/
def takeInner : List Char → Option (List Char × List Char)
  | [] => none
  | c :: rest =>
      if c = ']' then some ([], rest)
      else if c = '[' then none
      else
        match takeInner rest with
        | some p => some (c :: p.1, p.2)
        | none => none

/-- Fuel-indexed worker for the bracket rewriting.  Each step consumes at
least one character of the input (`takeInner` hands back a strict suffix), so
fuel equal to the input length always suffices and the out-of-fuel branch is
unreachable from `bracketReplace`. -/
def bracketReplaceF : Nat → List Char → List Char
  | 0, cs => cs
  | _ + 1, [] => []
  | fuel + 1, c :: rest =>
      if c = '[' then
        match takeInner rest with
        | some p => '.' :: (p.1 ++ '.' :: bracketReplaceF fuel p.2)
        | none => '[' :: bracketReplaceF fuel rest
      else c :: bracketReplaceF fuel rest

/-- The global regex replacement `property.replace(/\[([^[\]]*)\]/g, '.$1.')`:
every bracketed segment `[inner]` (inner free of brackets) becomes `.inner.`,
left to right. -/
def bracketReplace (cs : List Char) : List Char :=
  bracketReplaceF cs.length cs

/-- `split('.')` over the rewritten characters: the accumulator holds the
current segment reversed; every `.` closes a segment, the end closes the
last one, so `"a..b"` yields `["a", "", "b"]` and `""` yields `[""]`,
matching the JavaScript `String.prototype.split` with a one-character
separator. -/
def splitDots : List Char → List Char → List String
  | [], acc => [String.mk acc.reverse]
  | c :: rest, acc =>
      if c = '.' then String.mk acc.reverse :: splitDots rest []
      else splitDots rest (c :: acc)

/-- Splits a property path into segments: bracket segments rewritten to dot
segments, split on `.`, empty segments dropped — the pipeline
`replace(...).split('.').filter(t => t !== '')` of the source. -/
def parsePath (s : String) : List String :=
  (splitDots (bracketReplace s.data) []).filter (fun t => t != "")

/-- One step of the reduce callback of `retrieveParametersValue`: follow key
`k` when the accumulator is a truthy object exposing it, else `undefined`. -/
def jsStep (v : JVal) (k : String) : JVal :=
  if truthy v && isObjType v && jsHasKey v k then jsGet v k else .vundefined

/-- The reduce over the parsed segments, starting from the configuration. -/
def walk : List String → JVal → JVal
  | [], v => v
  | k :: ks, v => walk ks (jsStep v k)

/-- `retrieveParametersValue(parameters, property)` of `src/index.ts`: keep
the configuration when it is a truthy `typeof 'object'` value; with a truthy
string path, walk the parsed segments and keep the result only when it is a
truthy non-array object. -/
def retrieveParametersValue (parameters : JVal) (property : Option String) :
    Option JVal :=
  if truthy parameters && isObjType parameters then
    match property with
    | none => some parameters
    | some s =>
        if s != "" then
          let sub := walk (parsePath s) parameters
          if truthy sub && isObjType sub && !(isArr sub) then some sub
          else none
        else some parameters
  else none

/-- The canonical-shape test of `retrieveSchema`:
`'type' in v && v.type == 'object' && 'properties' in v`
(note the loose equality on `type`). -/
def isCanonicalShape (v : JVal) : Bool :=
  jsHasKey v "type" && jsLooseEqObjectStr (jsGet v "type") && jsHasKey v "properties"

/-- The recognized request facet names, `PARAMETERS_PROPS` of the source. -/
def PARAMETERS_PROPS : List String :=
  ["params", "body", "query", "headers", "cookies", "files"]

/-- `retrieveSchema(parameters, property)` of `src/index.ts`: locate a value
and, unless it already has canonical shape, wrap it whole as
`{type:'object', properties: v}`.  (The source also computes a copy of the
facet keys of `v` filtered to object values at this point, but discards it
and returns `v` unfiltered as `properties`.) -/
def retrieveSchema (parameters : JVal) (property : Option String) :
    Option JVal :=
  match retrieveParametersValue parameters property with
  | some v =>
      if truthy v then
        if !(isCanonicalShape v) then
          some (.vobj [("type", .vstr "object"), ("properties", v)])
        else some v
      else some v
  | none => none

/-- The incoming request, restricted to the facets and metadata the
middleware reads: the six request facets and `req.meta?.parameters`
(`vundefined` when the route carries no configuration). -/
structure Request where
  params : JVal
  body : JVal
  query : JVal
  headers : JVal
  cookies : JVal
  files : JVal
  metaParameters : JVal
deriving Repr

/-- The value object assembled by `buildValueToValidate`: a field is `some x`
exactly when the corresponding key was assigned on the result object `r`. -/
structure ValidationObject where
  params : Option JVal := none
  body : Option JVal := none
  query : Option JVal := none
  headers : Option JVal := none
  cookies : Option JVal := none
  files : Option JVal := none
deriving Repr

/-- `buildValueToValidate(schema, req)` of `src/index.ts`: when
`schema.properties` is a truthy `typeof 'object'` value, copy each of the six
facets whose name is a key of `properties` from the request, by reference. -/
def buildValueToValidate (schema : JVal) (req : Request) : ValidationObject :=
  if jsHasKey schema "properties" && truthy (jsGet schema "properties")
      && isObjType (jsGet schema "properties") then
    let properties := jsGet schema "properties"
    { params := if jsHasKey properties "params" then some req.params else none
      body := if jsHasKey properties "body" then some req.body else none
      query := if jsHasKey properties "query" then some req.query else none
      headers := if jsHasKey properties "headers" then some req.headers else none
      cookies := if jsHasKey properties "cookies" then some req.cookies else none
      files := if jsHasKey properties "files" then some req.files else none }
  else {}

/-- The keys present on a `ValidationObject`, in facet order. -/
def voKeys (r : ValidationObject) : List String :=
  (if r.params.isSome then ["params"] else [])
    ++ (if r.body.isSome then ["body"] else [])
    ++ (if r.query.isSome then ["query"] else [])
    ++ (if r.headers.isSome then ["headers"] else [])
    ++ (if r.cookies.isSome then ["cookies"] else [])
    ++ (if r.files.isSome then ["files"] else [])

/-- The observable outcome of one run of the request handler: pass control on,
invoke the per-route error handler (a function value tagged `fid`) with the
error payload, invoke the factory error handler with the payload, or send the
fixed `res.status(400).json(err)` response. -/
inductive Outcome where
  | next : Outcome
  | routeHandler : Nat → JVal → Outcome
  | factoryHandler : JVal → Outcome
  | response400 : JVal → Outcome
deriving Repr

/-- `validatorJsonRequestHandler` of `src/index.ts`, parameterized by the
validation engine: `engine none` is the factory-default Ajv instance (built
from the factory options), `engine (some opts)` a fresh instance built from
the per-route `validatorJsonOptions`; each returns the validity flag and the
error records of `validate.errors`.  `onerror` is the factory error-handler
argument (`vundefined` when omitted). -/
def validatorJsonRequestHandler
    (engine : Option JVal → JVal → ValidationObject → Bool × JVal)
    (onerror : JVal) (schemaProperty : Option String) (req : Request) :
    Outcome :=
  match retrieveSchema req.metaParameters schemaProperty with
  | none => .next
  | some schema =>
      let values := buildValueToValidate schema req
      let vOpts := jsGet req.metaParameters "validatorJsonOptions"
      let result :=
        if truthy vOpts then engine (some vOpts) schema values
        else engine none schema values
      if result.1 then .next
      else
        let err := JVal.vobj [("errors", result.2)]
        match jsGet req.metaParameters "onerror" with
        | .vfunc fid => .routeHandler fid err
        | _ =>
            if truthy onerror then
              if jsIsFunc onerror then .factoryHandler err
              else .response400 err
            else .response400 err

/-- Whether some segment of the walk fails to resolve: the accumulator at
that point is not a truthy object exposing the segment as a key. -/
def walkFails : List String → JVal → Bool
  | [], _ => false
  | k :: ks, v => !(truthy v && isObjType v && jsHasKey v k) || walkFails ks (jsStep v k)

/-- The acceptance test `retrieveParametersValue` applies to the walked-to
value: truthy, `typeof 'object'`, and not an array. -/
def isNonArrayObjectVal (v : JVal) : Bool :=
  truthy v && isObjType v && !(isArr v)

theorem walk_vundefined (ks : List String) : walk ks JVal.vundefined = JVal.vundefined := by
  induction ks with
  | nil => rfl
  | cons k ks ih => simpa [walk, jsStep, truthy] using ih

theorem walk_eq_vundefined_of_fails :
    ∀ (ks : List String) (v : JVal), walkFails ks v = true → walk ks v = JVal.vundefined := by
  intro ks
  induction ks with
  | nil => intro v h; simp [walkFails] at h
  | cons k ks ih =>
    intro v h
    simp only [walkFails, Bool.or_eq_true, Bool.not_eq_true'] at h
    rcases h with h | h
    · have hs : jsStep v k = JVal.vundefined := by simp [jsStep, h]
      rw [walk, hs, walk_vundefined]
    · rw [walk]
      exact ih _ h

theorem rpv_some_truthy (p : JVal) (q : Option String) (v : JVal)
    (h : retrieveParametersValue p q = some v) : truthy v = true := by
  unfold retrieveParametersValue at h
  split at h
  · rename_i hg
    simp only [Bool.and_eq_true] at hg
    cases q with
    | none =>
      cases h
      exact hg.1
    | some s =>
      dsimp only at h
      split at h
      · split at h
        · rename_i hsub
          simp only [Bool.and_eq_true] at hsub
          cases h
          exact hsub.1.1
        · cases h
      · cases h
        exact hg.1
  · cases h

theorem rpv_eq_of_parsePath_eq (p : JVal) (s1 s2 : String)
    (h1 : (s1 != "") = true) (h2 : (s2 != "") = true)
    (hpp : parsePath s1 = parsePath s2) :
    retrieveParametersValue p (some s1) = retrieveParametersValue p (some s2) := by
  unfold retrieveParametersValue
  dsimp only
  rw [h1, h2, hpp]

/-- C3: for every configuration object, resolving the property path
`"a.b[c]"` and resolving `"a.b.c"` locate the same value (bracket segments
are equivalent to dot segments), and the empty segment in `"a..b.c"` is
ignored, so it too resolves like `"a.b.c"`. -/
theorem retrieveParametersValue_bracket_dot_equiv (parameters : JVal) :
    retrieveParametersValue parameters (some "a.b[c]")
      = retrieveParametersValue parameters (some "a.b.c")
    ∧ retrieveParametersValue parameters (some "a..b.c")
      = retrieveParametersValue parameters (some "a.b.c") :=
  ⟨rpv_eq_of_parsePath_eq parameters "a.b[c]" "a.b.c" (by decide) (by decide) (by decide),
   rpv_eq_of_parsePath_eq parameters "a..b.c" "a.b.c" (by decide) (by decide) (by decide)⟩

/-- C10: for every configuration object, locating with the empty string as
the property path behaves exactly as locating with the path omitted: the
empty string is falsy, so the path branch is skipped and the configuration
itself is the located value. -/
theorem retrieveParametersValue_empty_string_path (parameters : JVal) :
    retrieveParametersValue parameters (some "")
      = retrieveParametersValue parameters none := by
  unfold retrieveParametersValue
  split <;> rfl

theorem rpv_some_eval (p : JVal) (s : String) (hs : (s != "") = true) :
    retrieveParametersValue p (some s)
      = if truthy p && isObjType p then
          (if isNonArrayObjectVal (walk (parsePath s) p)
           then some (walk (parsePath s) p) else none)
        else none := by
  unfold retrieveParametersValue isNonArrayObjectVal
  split
  · dsimp only
    rw [hs]
    rfl
  · rfl

/-- C7: for every configuration and non-empty property path, if some path
segment does not resolve to an existing key of an object at that point of
the walk, `retrieveParametersValue` returns null: the walk is stuck at
`undefined` from that segment on, and `undefined` fails the final
object test. -/
theorem retrieveParametersValue_unresolved_segment_null (parameters : JVal) (s : String)
    (hs : (s != "") = true)
    (hf : walkFails (parsePath s) parameters = true) :
    retrieveParametersValue parameters (some s) = none := by
  rw [rpv_some_eval parameters s hs, walk_eq_vundefined_of_fails _ _ hf]
  simp [isNonArrayObjectVal, truthy]

theorem retrieveParametersValue_unresolved_segment_null_witness :
    retrieveParametersValue (JVal.vobj [("a", JVal.vnum 1)]) (some "b") = none :=
  retrieveParametersValue_unresolved_segment_null (JVal.vobj [("a", JVal.vnum 1)]) "b"
    (by decide) (by decide)

/-- C5 counterexample: the claim says that whenever the located value is an
array the result is null, including the omitted-path case; but with the
path omitted an array configuration passes the `typeof 'object'` test and
is returned as located, non-null. -/
theorem retrieveParametersValue_array_config_counterexample :
    retrieveParametersValue (JVal.varr []) none = some (JVal.varr [])
    ∧ isArr (JVal.varr []) = true :=
  ⟨rfl, rfl⟩

/-- C5 amended: when a non-empty property path is provided, a located value
that is not a truthy non-array object yields null; but when the property
path is omitted, the configuration itself is returned whenever it is truthy
and of `typeof 'object'` — even when it is an array. -/
theorem retrieveParametersValue_nonobject_target (parameters : JVal) (s : String)
    (hs : (s != "") = true) :
    (isNonArrayObjectVal (walk (parsePath s) parameters) = false →
      retrieveParametersValue parameters (some s) = none)
    ∧ ((truthy parameters && isObjType parameters) = true →
      retrieveParametersValue parameters none = some parameters) := by
  constructor
  · intro hsub
    rw [rpv_some_eval parameters s hs, hsub]
    simp
  · intro hp
    unfold retrieveParametersValue
    rw [hp]
    rfl

theorem retrieveParametersValue_nonobject_target_witness :
    retrieveParametersValue (JVal.vobj [("a", JVal.vnum 1)]) (some "a") = none
    ∧ retrieveParametersValue (JVal.varr [JVal.vnum 3]) none = some (JVal.varr [JVal.vnum 3]) :=
  ⟨(retrieveParametersValue_nonobject_target (JVal.vobj [("a", JVal.vnum 1)]) "a"
      (by decide)).1 (by decide),
   (retrieveParametersValue_nonobject_target (JVal.varr [JVal.vnum 3]) "x"
      (by decide)).2 (by decide)⟩

/-- C2 counterexample: the located object
`{type: ['object'], properties: {}}` does not have `type === "object"` in the
strict sense (its `type` is an array, not the string), so the claim predicts
the wrap `{type:'object', properties: <located object>}`; but the source
compares with loose equality (`v.type == 'object'`), the array `['object']`
coerces to the string `"object"`, and the object is returned unchanged. -/
theorem retrieveSchema_strict_type_counterexample :
    retrieveSchema
        (JVal.vobj [("type", JVal.varr [JVal.vstr "object"]), ("properties", JVal.vobj [])]) none
      = some (JVal.vobj [("type", JVal.varr [JVal.vstr "object"]), ("properties", JVal.vobj [])])
    ∧ jsGet (JVal.vobj [("type", JVal.varr [JVal.vstr "object"]), ("properties", JVal.vobj [])]) "type"
        ≠ JVal.vstr "object"
    ∧ retrieveSchema
        (JVal.vobj [("type", JVal.varr [JVal.vstr "object"]), ("properties", JVal.vobj [])]) none
      ≠ some (JVal.vobj [("type", JVal.vstr "object"),
          ("properties",
            JVal.vobj [("type", JVal.varr [JVal.vstr "object"]), ("properties", JVal.vobj [])])]) :=
  by
  refine ⟨rfl, fun h => ?_, fun h => ?_⟩
  · exact nomatch h
  · exact nomatch h

/-- C2 amended: for every located object that does not satisfy the canonical
test the source actually performs — `type` loosely equal (`==`) to
`"object"` (satisfied by the string `"object"` and by any array coercing to
it) together with a `properties` key — `retrieveSchema` returns
`{type:"object", properties: <located object>}`, passing the whole located
object through as `properties` without filtering out keys that are not
recognized facet names or whose values are not objects. -/
theorem retrieveSchema_wraps_noncanonical (parameters : JVal) (property : Option String)
    (v : JVal)
    (hv : retrieveParametersValue parameters property = some v)
    (hnc : isCanonicalShape v = false) :
    retrieveSchema parameters property
      = some (JVal.vobj [("type", JVal.vstr "object"), ("properties", v)]) := by
  unfold retrieveSchema
  rw [hv]
  dsimp only
  rw [rpv_some_truthy parameters property v hv, hnc]
  rfl

theorem retrieveSchema_wraps_noncanonical_witness :
    retrieveSchema (JVal.vobj [("body", JVal.vobj []), ("junk", JVal.vnum 4)]) none
      = some (JVal.vobj [("type", JVal.vstr "object"),
          ("properties", JVal.vobj [("body", JVal.vobj []), ("junk", JVal.vnum 4)])]) :=
  retrieveSchema_wraps_noncanonical
    (JVal.vobj [("body", JVal.vobj []), ("junk", JVal.vnum 4)]) none
    (JVal.vobj [("body", JVal.vobj []), ("junk", JVal.vnum 4)]) rfl rfl

/-- C6: for every located object that already has `type === "object"` (the
strict form implies the loose test the source performs) and contains a
`properties` key, `retrieveSchema` returns that object unchanged. -/
theorem retrieveSchema_canonical_identity (parameters : JVal) (property : Option String)
    (v : JVal)
    (hv : retrieveParametersValue parameters property = some v)
    (hty : jsHasKey v "type" = true)
    (ht : jsGet v "type" = JVal.vstr "object")
    (hp : jsHasKey v "properties" = true) :
    retrieveSchema parameters property = some v := by
  have hc : isCanonicalShape v = true := by
    unfold isCanonicalShape
    rw [hty, ht, hp]
    rfl
  unfold retrieveSchema
  rw [hv]
  dsimp only
  rw [rpv_some_truthy parameters property v hv, hc]
  rfl

theorem retrieveSchema_canonical_identity_witness :
    retrieveSchema
        (JVal.vobj [("type", JVal.vstr "object"), ("properties", JVal.vobj [("body", JVal.vobj [])])])
        none
      = some (JVal.vobj [("type", JVal.vstr "object"),
          ("properties", JVal.vobj [("body", JVal.vobj [])])]) :=
  retrieveSchema_canonical_identity
    (JVal.vobj [("type", JVal.vstr "object"), ("properties", JVal.vobj [("body", JVal.vobj [])])])
    none
    (JVal.vobj [("type", JVal.vstr "object"), ("properties", JVal.vobj [("body", JVal.vobj [])])])
    rfl rfl rfl rfl

/-- C9: for every schema argument whose `properties` field is absent or not
a plain object, `buildValueToValidate` returns the empty mapping (when
`properties` is an array the source's guard passes, but no facet name is a
key of an array, so the result is still empty). -/
theorem buildValueToValidate_no_properties_empty (schema : JVal) (req : Request)
    (h : isObjVal (jsGet schema "properties") = false) :
    buildValueToValidate schema req = {} := by
  unfold buildValueToValidate
  cases hp : jsGet schema "properties" with
  | vundefined => simp [truthy, isObjType]
  | vnull => simp [truthy, isObjType]
  | vbool b => simp [truthy, isObjType]
  | vnum n => simp [truthy, isObjType]
  | vstr t => simp [truthy, isObjType]
  | varr xs =>
    have k1 : jsHasKey (JVal.varr xs) "params" = false := rfl
    have k2 : jsHasKey (JVal.varr xs) "body" = false := rfl
    have k3 : jsHasKey (JVal.varr xs) "query" = false := rfl
    have k4 : jsHasKey (JVal.varr xs) "headers" = false := rfl
    have k5 : jsHasKey (JVal.varr xs) "cookies" = false := rfl
    have k6 : jsHasKey (JVal.varr xs) "files" = false := rfl
    simp [k1, k2, k3, k4, k5, k6]
  | vobj flds => exact absurd h (by rw [hp]; simp [isObjVal])
  | vfunc n => simp [truthy, isObjType]

theorem buildValueToValidate_no_properties_empty_witness :
    buildValueToValidate (JVal.vstr "x")
      { params := JVal.vstr "P", body := JVal.vstr "B", query := JVal.vstr "Q",
        headers := JVal.vstr "H", cookies := JVal.vstr "C", files := JVal.vstr "F",
        metaParameters := JVal.vundefined } = {} :=
  buildValueToValidate_no_properties_empty (JVal.vstr "x")
    { params := JVal.vstr "P", body := JVal.vstr "B", query := JVal.vstr "Q",
      headers := JVal.vstr "H", cookies := JVal.vstr "C", files := JVal.vstr "F",
      metaParameters := JVal.vundefined } rfl

/-- C1: for every schema whose `properties` field is an object, the key set
of the mapping built by `buildValueToValidate` is exactly the intersection
of the six recognized facet names with the key set of `properties` (stated
as the filter of `PARAMETERS_PROPS` by key membership), and each included
facet is bound to the corresponding request facet; facets not mentioned in
`properties` are absent even if present on the request. -/
theorem buildValueToValidate_keyset (schema : JVal) (flds : List (String × JVal))
    (req : Request)
    (hkey : jsHasKey schema "properties" = true)
    (hget : jsGet schema "properties" = JVal.vobj flds) :
    voKeys (buildValueToValidate schema req)
      = PARAMETERS_PROPS.filter (fun p => jsHasKey (JVal.vobj flds) p)
    ∧ (buildValueToValidate schema req).params
        = (if jsHasKey (JVal.vobj flds) "params" then some req.params else none)
    ∧ (buildValueToValidate schema req).body
        = (if jsHasKey (JVal.vobj flds) "body" then some req.body else none)
    ∧ (buildValueToValidate schema req).query
        = (if jsHasKey (JVal.vobj flds) "query" then some req.query else none)
    ∧ (buildValueToValidate schema req).headers
        = (if jsHasKey (JVal.vobj flds) "headers" then some req.headers else none)
    ∧ (buildValueToValidate schema req).cookies
        = (if jsHasKey (JVal.vobj flds) "cookies" then some req.cookies else none)
    ∧ (buildValueToValidate schema req).files
        = (if jsHasKey (JVal.vobj flds) "files" then some req.files else none) := by
  have hbv : buildValueToValidate schema req =
      { params := if jsHasKey (JVal.vobj flds) "params" then some req.params else none
        body := if jsHasKey (JVal.vobj flds) "body" then some req.body else none
        query := if jsHasKey (JVal.vobj flds) "query" then some req.query else none
        headers := if jsHasKey (JVal.vobj flds) "headers" then some req.headers else none
        cookies := if jsHasKey (JVal.vobj flds) "cookies" then some req.cookies else none
        files := if jsHasKey (JVal.vobj flds) "files" then some req.files else none } := by
    unfold buildValueToValidate
    rw [hkey, hget]
    rfl
  rw [hbv]
  refine ⟨?_, rfl, rfl, rfl, rfl, rfl, rfl⟩
  unfold voKeys PARAMETERS_PROPS
  cases h1 : jsHasKey (JVal.vobj flds) "params" <;>
  cases h2 : jsHasKey (JVal.vobj flds) "body" <;>
  cases h3 : jsHasKey (JVal.vobj flds) "query" <;>
  cases h4 : jsHasKey (JVal.vobj flds) "headers" <;>
  cases h5 : jsHasKey (JVal.vobj flds) "cookies" <;>
  cases h6 : jsHasKey (JVal.vobj flds) "files" <;>
  simp [h1, h2, h3, h4, h5, h6, List.filter]

theorem buildValueToValidate_keyset_witness :
    voKeys (buildValueToValidate
        (JVal.vobj [("properties", JVal.vobj [("body", JVal.vnum 0), ("junk", JVal.vnull)])])
        { params := JVal.vstr "P", body := JVal.vstr "B", query := JVal.vstr "Q",
          headers := JVal.vstr "H", cookies := JVal.vstr "C", files := JVal.vstr "F",
          metaParameters := JVal.vundefined })
      = ["body"] := by
  rw [(buildValueToValidate_keyset
      (JVal.vobj [("properties", JVal.vobj [("body", JVal.vnum 0), ("junk", JVal.vnull)])])
      [("body", JVal.vnum 0), ("junk", JVal.vnull)]
      { params := JVal.vstr "P", body := JVal.vstr "B", query := JVal.vstr "Q",
        headers := JVal.vstr "H", cookies := JVal.vstr "C", files := JVal.vstr "F",
        metaParameters := JVal.vundefined } (by decide) rfl).1]
  decide

/-- C8: for every request whose route configuration lacks a locatable
schema, the middleware returns control to the next handler at once: the
outcome is `next` for every engine, so no validation is performed and no
response is written. -/
theorem validatorJsonRequestHandler_no_schema_next
    (engine : Option JVal → JVal → ValidationObject → Bool × JVal)
    (onerror : JVal) (schemaProperty : Option String) (req : Request)
    (h : retrieveSchema req.metaParameters schemaProperty = none) :
    validatorJsonRequestHandler engine onerror schemaProperty req = Outcome.next := by
  unfold validatorJsonRequestHandler
  rw [h]

theorem validatorJsonRequestHandler_no_schema_next_witness :
    validatorJsonRequestHandler (fun _ _ _ => (true, JVal.vnull)) JVal.vundefined none
      { params := JVal.vundefined, body := JVal.vundefined, query := JVal.vundefined,
        headers := JVal.vundefined, cookies := JVal.vundefined, files := JVal.vundefined,
        metaParameters := JVal.vundefined }
      = Outcome.next :=
  validatorJsonRequestHandler_no_schema_next (fun _ _ _ => (true, JVal.vnull))
    JVal.vundefined none
    { params := JVal.vundefined, body := JVal.vundefined, query := JVal.vundefined,
      headers := JVal.vundefined, cookies := JVal.vundefined, files := JVal.vundefined,
      metaParameters := JVal.vundefined } rfl

/-- C4: on validation failure the error handler is resolved in strict
precedence order: a callable per-route `onerror` from the route
configuration is invoked with the payload `{errors: <records>}`; otherwise
a callable factory `onerror` is invoked with that payload; otherwise the
fixed 400 response is sent with that payload as body.  Non-callable values
at either level are skipped in favor of the next level. -/
theorem validatorJsonRequestHandler_error_dispatch
    (engine : Option JVal → JVal → ValidationObject → Bool × JVal)
    (onerror : JVal) (schemaProperty : Option String) (req : Request)
    (schema errs : JVal)
    (hs : retrieveSchema req.metaParameters schemaProperty = some schema)
    (hE : ∀ (o : Option JVal) (sc : JVal) (vv : ValidationObject),
        engine o sc vv = (false, errs)) :
    (∀ fid : Nat, jsGet req.metaParameters "onerror" = JVal.vfunc fid →
        validatorJsonRequestHandler engine onerror schemaProperty req
          = Outcome.routeHandler fid (JVal.vobj [("errors", errs)]))
    ∧ (jsIsFunc (jsGet req.metaParameters "onerror") = false →
        jsIsFunc onerror = true →
        validatorJsonRequestHandler engine onerror schemaProperty req
          = Outcome.factoryHandler (JVal.vobj [("errors", errs)]))
    ∧ (jsIsFunc (jsGet req.metaParameters "onerror") = false →
        jsIsFunc onerror = false →
        validatorJsonRequestHandler engine onerror schemaProperty req
          = Outcome.response400 (JVal.vobj [("errors", errs)])) := by
  have key : validatorJsonRequestHandler engine onerror schemaProperty req =
      (match jsGet req.metaParameters "onerror" with
       | JVal.vfunc fid => Outcome.routeHandler fid (JVal.vobj [("errors", errs)])
       | _ =>
           if truthy onerror then
             if jsIsFunc onerror then Outcome.factoryHandler (JVal.vobj [("errors", errs)])
             else Outcome.response400 (JVal.vobj [("errors", errs)])
           else Outcome.response400 (JVal.vobj [("errors", errs)])) := by
    unfold validatorJsonRequestHandler
    rw [hs]
    dsimp only
    simp only [hE, ite_self]
    rfl
  refine ⟨?_, ?_, ?_⟩
  · intro fid hf
    rw [key, hf]
  · intro h1 h2
    rw [key]
    cases onerror <;> try simp [jsIsFunc] at h2
    cases hov : jsGet req.metaParameters "onerror" <;>
      try (rw [hov] at h1; simp [jsIsFunc] at h1)
    all_goals rfl
  · intro h1 h2
    rw [key]
    cases hov : jsGet req.metaParameters "onerror" <;>
      try (rw [hov] at h1; simp [jsIsFunc] at h1)
    all_goals
      rw [h2]
      cases htr : truthy onerror <;> rfl

theorem validatorJsonRequestHandler_error_dispatch_witness :
    validatorJsonRequestHandler (fun _ _ _ => (false, JVal.vstr "E")) JVal.vundefined none
      { params := JVal.vundefined, body := JVal.vundefined, query := JVal.vundefined,
        headers := JVal.vundefined, cookies := JVal.vundefined, files := JVal.vundefined,
        metaParameters := JVal.vobj [("body", JVal.vobj [])] }
      = Outcome.response400 (JVal.vobj [("errors", JVal.vstr "E")]) :=
  (validatorJsonRequestHandler_error_dispatch
      (fun _ _ _ => (false, JVal.vstr "E")) JVal.vundefined none
      { params := JVal.vundefined, body := JVal.vundefined, query := JVal.vundefined,
        headers := JVal.vundefined, cookies := JVal.vundefined, files := JVal.vundefined,
        metaParameters := JVal.vobj [("body", JVal.vobj [])] }
      (JVal.vobj [("type", JVal.vstr "object"),
        ("properties", JVal.vobj [("body", JVal.vobj [])])])
      (JVal.vstr "E") rfl (fun _ _ _ => rfl)).2.2 rfl rfl
